import Mathlib

/-!
Shallow embedding of the thermal-viewer backend (Flask + boto3 services) and
proofs about its specification claims.

Conventions of the embedding:
* DynamoDB `Decimal` values and Python floats are idealised as `ℚ`
  (exact rational arithmetic); the transcendental coverage-area computation
  lives in `ℝ`.
* Python `dict.get(k, default)` chains become `Option` chains with `getD`.
* Python exceptions become `Except`; a `try/except` wrapper becomes a match
  on the `Except` value.
* External stores (DynamoDB tables, S3) are parameters: query functions and
  a head-object probe `String → HeadResult`.
-/

/-- Result of an S3 `head_object` call, as seen by the Python client:
success, a `botocore` `ClientError` carrying an error code (`"404"` for a
missing object), or any other exception. -/
inductive HeadResult where
  | ok : HeadResult
  | clientError : String → HeadResult
  | otherError : HeadResult
deriving DecidableEq

mutual

/-- Python/JSON-style values as stored in DynamoDB records and emitted in
Flask `jsonify` bodies.  `dec` is a `decimal.Decimal`, `flt` a float (both
idealised as `ℚ`); `pnone` is Python `None`.  Dicts and lists are modelled
by the mutual types `PyFields` and `PyItems` (isomorphic to ordered
association lists and lists). -/
inductive PyVal where
  | dec : ℚ → PyVal
  | flt : ℚ → PyVal
  | str : String → PyVal
  | intg : ℤ → PyVal
  | boolean : Bool → PyVal
  | pnone : PyVal
  | dict : PyFields → PyVal
  | list : PyItems → PyVal

inductive PyFields where
  | nil : PyFields
  | cons : String → PyVal → PyFields → PyFields

inductive PyItems where
  | nil : PyItems
  | cons : PyVal → PyItems → PyItems

end

mutual

/-- Embedding of `app.decimal_to_float` (src/app.py lines 63-70): recursively
convert every `Decimal` to a float, descending through dicts and lists; all
other values are returned unchanged. -/
def decimal_to_float : PyVal → PyVal
  | .dec d => .flt d
  | .dict kvs => .dict (decimal_to_float_fields kvs)
  | .list xs => .list (decimal_to_float_items xs)
  | v => v

def decimal_to_float_fields : PyFields → PyFields
  | .nil => .nil
  | .cons k v rest => .cons k (decimal_to_float v) (decimal_to_float_fields rest)

def decimal_to_float_items : PyItems → PyItems
  | .nil => .nil
  | .cons v rest => .cons (decimal_to_float v) (decimal_to_float_items rest)

end

mutual

/-- A value is Decimal-free when no `dec` node occurs anywhere inside it. -/
def decFree : PyVal → Bool
  | .dec _ => false
  | .dict kvs => decFreeFields kvs
  | .list xs => decFreeItems xs
  | _ => true

def decFreeFields : PyFields → Bool
  | .nil => true
  | .cons _ v rest => decFree v && decFreeFields rest

def decFreeItems : PyItems → Bool
  | .nil => true
  | .cons v rest => decFree v && decFreeItems rest

end

/-! ## Image records (DynamoDB `images` table) -/

/-- GPS block inside `optical_metadata`. -/
structure GpsLocation where
  altitude : Option ℚ

/-- Embedded `optical_metadata` block of an image record. -/
structure OpticalMetadata where
  gps_location : Option GpsLocation

/-- Raw sensor temperature block (`thermal_metadata`) of an image record. -/
structure ThermalMetadata where
  temperature_min : Option ℚ
  temperature_max : Option ℚ
  temperature_avg : Option ℚ
  emissivity : Option ℚ
  object_distance : Option ℚ
  reflected_temperature : Option ℚ
  ambient_temperature : Option ℚ
  relative_humidity : Option ℚ

/-- Calibrated temperature delta block (`calibration.temperature_delta`).
`min_calibrated` may be present in a record; the code never reads it. -/
structure TemperatureDelta where
  max_calibrated : Option ℚ
  avg_calibrated : Option ℚ
  min_calibrated : Option ℚ

/-- Calibration parameter block (`calibration.params`). -/
structure CalibParams where
  emissivity : Option ℚ
  distance : Option ℚ
  reflection : Option ℚ
  ambient_temp : Option ℚ
  humidity : Option ℚ

/-- Calibration block of an image record. -/
structure Calibration where
  status : Option String
  temperature_delta : Option TemperatureDelta
  params : Option CalibParams

/-- Dataset-wide temperature statistics
(`processing_status.colormapping.medical.temperature_stats`). -/
structure TemperatureStatsRec where
  min_temp_c : Option ℚ
  max_temp_c : Option ℚ
  mean_temp_c : Option ℚ
  normalization : Option String
  sample_size : Option ℤ

/-- The `medical` palette entry of the colormapping block. -/
structure MedicalColormap where
  temperature_stats : Option TemperatureStatsRec

/-- Colormapping block of `processing_status`. -/
structure Colormapping where
  medical : Option MedicalColormap

/-- Mosaic preparation block (`processing_status.mosaic_prep`).
`mosaic_s3_keys` is a string-keyed mapping, modelled as an ordered
association list. -/
structure MosaicPrep where
  included_in : Option (List String)
  mosaic_s3_keys : Option (List (String × String))

/-- Processing-status block of an image record. -/
structure ProcessingStatus where
  mosaic_prep : Option MosaicPrep
  colormapping : Option Colormapping

/-- A record of the `images` table.  Fields the code reads with
`item.get(...)` are `Option`s; `colored_images` defaults to the empty
mapping when absent, so it is a plain association list. -/
structure ImageRec where
  image_id : String
  site_id : Option String
  sector_id : Option String
  period : Option String
  thermal_filename : Option String
  optical_s3_key : Option String
  colored_images : List (String × String)
  optical_metadata : Option OpticalMetadata
  thermal_metadata : Option ThermalMetadata
  calibration : Option Calibration
  processing_status : Option ProcessingStatus

/-! ## Thermal statistics (`ImageService.get_thermal_stats`) -/

/-- Parameter sub-dictionary of the returned statistics
(either `calibration_params` or `original_params`). -/
structure ParamsOut where
  emissivity : ℚ
  distance : ℚ
  reflection : ℚ
  ambient_temp : ℚ
  humidity : ℚ
deriving DecidableEq

/-- The `dataset_temperature_range` sub-dictionary of the returned
statistics. -/
structure DatasetTempRange where
  min_temp_c : ℚ
  max_temp_c : ℚ
  mean_temp_c : ℚ
  normalization : String
  sample_size : ℤ
deriving DecidableEq

/-- Return value of `get_thermal_stats`: the keys of the Python result
dictionary.  Exactly one of `calibration_params` / `original_params` is
populated; `dataset_temperature_range` is present only when the
colormapping metadata carries it. -/
structure ThermalStats where
  min_temp : ℚ
  max_temp : ℚ
  avg_temp : ℚ
  is_calibrated : Bool
  palette : String
  calibration_params : Option ParamsOut
  original_params : Option ParamsOut
  dataset_temperature_range : Option DatasetTempRange
deriving DecidableEq

/-- Embedding of `ImageService.get_thermal_stats`
(src/services/image_service.py lines 183-266).  `get_item` models the
DynamoDB `get_item` lookup; a missing record raises
`ValueError("Image not found: ...")`, modelled as `Except.error`. -/
def get_thermal_stats (get_item : String → Option ImageRec) (image_id : String) :
    Except String ThermalStats :=
  match get_item image_id with
  | none => .error ("Image not found: " ++ image_id)
  | some item =>
    let thermal_metadata := item.thermal_metadata
    let calibration := item.calibration
    let is_calibrated : Bool := (calibration.bind (·.status)) == some "calibrated"
    let base : ThermalStats :=
      if is_calibrated then
        let temp_delta := calibration.bind (·.temperature_delta)
        let params := calibration.bind (·.params)
        { min_temp := (thermal_metadata.bind (·.temperature_min)).getD 0
          max_temp := (temp_delta.bind (·.max_calibrated)).getD 0
          avg_temp := (temp_delta.bind (·.avg_calibrated)).getD 0
          is_calibrated := true
          palette := "medical"
          calibration_params := some
            { emissivity := (params.bind (·.emissivity)).getD 0
              distance := (params.bind (·.distance)).getD 0
              reflection := (params.bind (·.reflection)).getD 0
              ambient_temp := (params.bind (·.ambient_temp)).getD 0
              humidity := (params.bind (·.humidity)).getD 0 }
          original_params := none
          dataset_temperature_range := none }
      else
        { min_temp := (thermal_metadata.bind (·.temperature_min)).getD 0
          max_temp := (thermal_metadata.bind (·.temperature_max)).getD 0
          avg_temp := (thermal_metadata.bind (·.temperature_avg)).getD 0
          is_calibrated := false
          palette := "medical"
          calibration_params := none
          original_params := some
            { emissivity := (thermal_metadata.bind (·.emissivity)).getD 0
              distance := (thermal_metadata.bind (·.object_distance)).getD 0
              reflection := (thermal_metadata.bind (·.reflected_temperature)).getD 0
              ambient_temp := (thermal_metadata.bind (·.ambient_temperature)).getD 0
              humidity := (thermal_metadata.bind (·.relative_humidity)).getD 0 }
          dataset_temperature_range := none }
    let stats : ThermalStats :=
      match item.processing_status.bind (·.colormapping) |>.bind (·.medical) |>.bind (·.temperature_stats) with
      | none => base
      | some ts =>
        let range : DatasetTempRange :=
          { min_temp_c := ts.min_temp_c.getD 0
            max_temp_c := ts.max_temp_c.getD 0
            mean_temp_c := ts.mean_temp_c.getD 0
            normalization := ts.normalization.getD "unknown"
            sample_size := ts.sample_size.getD 0 }
        { base with dataset_temperature_range := some range }
    .ok stats

/-! ## Coverage estimator (`MosaicService.get_coverage_stats`) -/

/-- Python truthiness of an optional numeric value: `None`, `0` and `0.0`
are falsy; any other number is truthy. -/
def truthyQ : Option ℚ → Bool
  | none => false
  | some a => a != 0

/-- The DJI M2EA field-of-view constant from the code (`68.9`). -/
def camera_fov : ℚ := 689 / 10

/-- `math.radians(camera_fov)`. -/
noncomputable def fov_rad : ℝ := (camera_fov : ℝ) * Real.pi / 180

/-- Python `round(x, 2)` on a rational, modelled as round-half-up to two
decimal places. -/
def roundTo2Q (x : ℚ) : ℚ := (round (x * 100) : ℤ) / 100

/-- Python `round(x, 2)` on a real, modelled as round-half-up to two
decimal places. -/
noncomputable def roundTo2R (x : ℝ) : ℝ := (round (x * 100) : ℤ) / 100

/-- The altitude-collection loop of `get_coverage_stats`
(src/services/mosaic_service.py lines 175-181): read
`optical_metadata.gps_location.altitude` per image and keep it when truthy
(so an absent altitude and a `0` altitude are both skipped). -/
def collectAltitudes : List ImageRec → List ℚ
  | [] => []
  | img :: rest =>
    let altitude := (img.optical_metadata.bind (·.gps_location)).bind (·.altitude)
    if truthyQ altitude then altitude.getD 0 :: collectAltitudes rest
    else collectAltitudes rest

/-- The `avg_altitude` value computed by the code:
`sum(altitudes) / len(altitudes) if altitudes else 0`. -/
def codeAvgAltitude (images : List ImageRec) : ℚ :=
  let altitudes := collectAltitudes images
  if altitudes.isEmpty then 0 else altitudes.sum / (altitudes.length : ℚ)

/-- Return value of `get_coverage_stats`. -/
structure CoverageStats where
  total_images : ℕ
  coverage_area_m2 : ℝ
  avg_altitude_m : ℚ
  camera_fov_deg : ℚ

/-- Embedding of the statistics part of `MosaicService.get_coverage_stats`
(src/services/mosaic_service.py lines 161-207), taking the already-queried
image list (the spec's `estimate_coverage(images)` contract). -/
noncomputable def get_coverage_stats (images : List ImageRec) : CoverageStats :=
  if images.isEmpty then
    { total_images := 0, coverage_area_m2 := 0, avg_altitude_m := 0, camera_fov_deg := 0 }
  else
    let total_images := images.length
    let avg_altitude := codeAvgAltitude images
    let total_area : ℝ :=
      if 0 < avg_altitude then
        let ground_width : ℝ := 2 * (avg_altitude : ℝ) * Real.tan (fov_rad / 2)
        let ground_height : ℝ := ground_width * (512 / 640)
        let area_per_image : ℝ := ground_width * ground_height
        area_per_image * (total_images : ℝ) * (0.4 : ℝ)
      else 0
    { total_images := total_images
      coverage_area_m2 := roundTo2R total_area
      avg_altitude_m := roundTo2Q avg_altitude
      camera_fov_deg := camera_fov }

/-- Spec-side reading of the claims: the altitudes of exactly those images
whose GPS metadata contains an altitude value. -/
def presentAltitudes (images : List ImageRec) : List ℚ :=
  images.filterMap (fun img => (img.optical_metadata.bind (·.gps_location)).bind (·.altitude))

/-- Spec-side arithmetic mean over all present altitudes (claim C6's
reading, which counts a recorded altitude of `0`). -/
def specMeanPresent (images : List ImageRec) : ℚ :=
  (presentAltitudes images).sum / ((presentAltitudes images).length : ℚ)

/-- Present altitudes that are nonzero (what the code's truthiness test
actually keeps). -/
def specNonzeroAltitudes (images : List ImageRec) : List ℚ :=
  (presentAltitudes images).filter (fun a => a ≠ 0)

/-- Arithmetic mean of the nonzero present altitudes (`0` when there are
none). -/
def specMeanNonzero (images : List ImageRec) : ℚ :=
  if specNonzeroAltitudes images = [] then 0
  else (specNonzeroAltitudes images).sum / ((specNonzeroAltitudes images).length : ℚ)

/-- Formula of claim C7, written from the spec's words: the footprint of a
nadir shot at altitude `h` with the fixed 68.9° field of view, times the
image count, times the fixed de-overlap factor, rounded to 2 decimals. -/
noncomputable def specCoverageArea (h : ℚ) (n : ℕ) : ℝ :=
  let w : ℝ := 2 * (h : ℝ) * Real.tan (((68.9 : ℝ) * Real.pi / 180) / 2)
  roundTo2R (w * (w * 512 / 640) * (n : ℝ) * (0.4 : ℝ))

/-! ## Completeness checker (`MosaicService.check_pad_completeness`) -/

/-- The fixed variant order checked by the code. -/
def required_types : List String := ["optical", "medical", "hotspot_alert"]

/-- Embedding of `MosaicService._s3_object_exists`
(src/services/mosaic_service.py lines 294-314): a successful
`head_object` yields `true`; a `ClientError` with code `"404"` yields
`false`; any other `ClientError` is re-raised (and is NOT caught by the
following broad handler, since it is raised inside the first `except`
block); any non-`ClientError` exception is swallowed and yields `false`. -/
def s3_object_exists (s3_head : String → HeadResult) (s3_key : String) : Except Unit Bool :=
  match s3_head s3_key with
  | .ok => .ok true
  | .clientError code => if code = "404" then .ok false else .error ()
  | .otherError => .ok false

/-- The per-variant loop body of `check_pad_completeness`
(src/services/mosaic_service.py lines 265-288): for each required type,
fail fast when it is absent from `included_in` or `mosaic_s3_keys`, then
probe the two composed artifact keys. -/
def checkMosaicTypes (s3_head : String → HeadResult) (included_in : List String)
    (mosaic_s3_keys : List (String × String)) : List String → Except Unit Bool
  | [] => .ok true
  | mosaic_type :: rest =>
    if included_in.contains mosaic_type then
      match mosaic_s3_keys.lookup mosaic_type with
      | none => .ok false
      | some base_key =>
        match s3_object_exists s3_head (base_key ++ "/odm_orthophoto.tif") with
        | .error e => .error e
        | .ok false => .ok false
        | .ok true =>
          match s3_object_exists s3_head (base_key ++ "/shots.geojson") with
          | .error e => .error e
          | .ok false => .ok false
          | .ok true => checkMosaicTypes s3_head included_in mosaic_s3_keys rest
    else .ok false

/-- Shape of the images-table query used by the mosaic service
(`site`, `sector`, `period`, `pad_id` to a list of records, or a raised
exception). -/
def ImagesQuery : Type := String → String → String → String → Except Unit (List ImageRec)

/-- The body of the `try` block of `check_pad_completeness`
(src/services/mosaic_service.py lines 239-288). -/
def check_pad_completeness_run (query_images : ImagesQuery) (s3_head : String → HeadResult)
    (site sector period pad_id : String) : Except Unit Bool :=
  match query_images site sector period pad_id with
  | .error e => .error e
  | .ok items =>
    match items with
    | [] => .ok false
    | first_image :: _ =>
      let mosaic_prep := first_image.processing_status.bind (·.mosaic_prep)
      let included_in := (mosaic_prep.bind (·.included_in)).getD []
      let mosaic_s3_keys := (mosaic_prep.bind (·.mosaic_s3_keys)).getD []
      checkMosaicTypes s3_head included_in mosaic_s3_keys required_types

/-- Embedding of `MosaicService.check_pad_completeness`
(src/services/mosaic_service.py lines 213-292): run the check and convert
any exception raised inside the `try` block into `False`. -/
def check_pad_completeness (query_images : ImagesQuery) (s3_head : String → HeadResult)
    (site sector period pad_id : String) : Bool :=
  match check_pad_completeness_run query_images s3_head site sector period pad_id with
  | .ok result => result
  | .error _ => false

/-- Spec-side reading of one variant being complete for a record with the
given `included_in` list and `mosaic_s3_keys` mapping: listed, keyed, and
both composed artifact objects present in the blob store. -/
def variantComplete (s3_head : String → HeadResult) (included_in : List String)
    (mosaic_s3_keys : List (String × String)) (mosaic_type : String) : Prop :=
  mosaic_type ∈ included_in ∧
    ∃ base_key, mosaic_s3_keys.lookup mosaic_type = some base_key ∧
      s3_head (base_key ++ "/odm_orthophoto.tif") = .ok ∧
      s3_head (base_key ++ "/shots.geojson") = .ok

/-- A blob store whose probes never fail: every `head_object` call either
succeeds or reports a missing object. -/
def errorFreeProbe (s3_head : String → HeadResult) : Prop :=
  ∀ k, s3_head k = .ok ∨ s3_head k = .clientError "404"

/-! ## Image URL services (`ImageService`) -/

/-- Python truthiness of an optional string: `None` and `""` are falsy. -/
def truthyS : Option String → Bool
  | none => false
  | some s => s != ""

/-- Python `str.split(sep)` on a character list: split at every occurrence
of the separator, keeping empty pieces. -/
def splitOnChar (sep : Char) : List Char → List (List Char)
  | [] => [[]]
  | x :: rest =>
    match splitOnChar sep rest with
    | [] => [[x]]
    | g :: gs => if x = sep then [] :: g :: gs else (x :: g) :: gs

/-- Python `sep.join(pieces)` on character lists. -/
def joinWith (sep : Char) : List (List Char) → List Char
  | [] => []
  | [g] => g
  | g :: gs => g ++ sep :: joinWith sep gs

/-- Python `s.rsplit('.', 1)[0] if '.' in s else s`: drop the last
dot-separated extension when there is one (equivalently, keep everything
before the last dot). -/
def stripLastExt (s : String) : String :=
  if s.data.contains '.' then String.mk (joinWith '.' ((splitOnChar '.' s.data).dropLast))
  else s

/-- The colorbar object key convention
`colored/(palette)/(site)/(sector)/(period)/(image_name)_colorbar.png`. -/
def colorbar_key_of (palette site sector period image_name : String) : String :=
  "colored/" ++ palette ++ "/" ++ site ++ "/" ++ sector ++ "/" ++ period ++ "/" ++
    image_name ++ "_colorbar.png"

/-- Embedding of `ImageService._get_colorbar_url`
(src/services/image_service.py lines 29-95).  The whole body sits in a
broad `try/except` returning `None`, so the re-raised non-404
`ClientError` of the inner probe and any other probe exception both end as
`None`; only a successful probe yields a presigned URL. -/
def get_colorbar_url (s3_head : String → HeadResult) (presign : String → String)
    (item : ImageRec) (palette : String) : Option String :=
  if !(truthyS item.site_id && truthyS item.sector_id && truthyS item.period) then none
  else
    let tf? : Option String :=
      if truthyS item.thermal_filename then item.thermal_filename
      else
        let parts := splitOnChar '_' item.image_id.data
        if 4 ≤ parts.length then
          some (String.mk (joinWith '_' (parts.drop (parts.length - 3))))
        else none
    match tf? with
    | none => none
    | some thermal_filename =>
      let image_name := stripLastExt thermal_filename
      let colorbar_key := colorbar_key_of palette (item.site_id.getD "")
        (item.sector_id.getD "") (item.period.getD "") image_name
      match s3_head colorbar_key with
      | .ok => some (presign colorbar_key)
      | .clientError _ => none
      | .otherError => none

/-- Result of `ImageService.get_thermal_image_url`. -/
structure ThermalUrlResult where
  url : String
  colorbar_url : Option String
deriving DecidableEq

/-- Embedding of `ImageService.get_thermal_image_url`
(src/services/image_service.py lines 135-181). -/
def get_thermal_image_url (get_item : String → Option ImageRec)
    (s3_head : String → HeadResult) (presign : String → String)
    (image_id : String) (palette : String) : Except String ThermalUrlResult :=
  match get_item image_id with
  | none => .error ("Image not found: " ++ image_id)
  | some item =>
    let s3_key? := item.colored_images.lookup palette
    if !(truthyS s3_key?) then .error ("No " ++ palette ++ " thermal image for " ++ image_id)
    else
      .ok { url := presign (s3_key?.getD "")
            colorbar_url := get_colorbar_url s3_head presign item palette }

/-- Embedding of `ImageService.get_optical_image_url`
(src/services/image_service.py lines 97-133). -/
def get_optical_image_url (get_item : String → Option ImageRec) (presign : String → String)
    (image_id : String) : Except String String :=
  match get_item image_id with
  | none => .error ("Image not found: " ++ image_id)
  | some item =>
    if !(truthyS item.optical_s3_key) then .error ("No optical S3 key for image: " ++ image_id)
    else .ok (presign (item.optical_s3_key.getD ""))

/-! ## Pipe-measurement service and Flask routes -/

/-- Embedding of `PipeMeasureService.get_measurement`
(src/services/pipemeasure_service.py lines 32-104): query the GSI by
`site` and the composite `sector#period#pad_id` key, return the first item
or `None`; query failures are re-raised. -/
def pm_get_measurement (query_meas : String → String → Except String (List PyVal))
    (site sector period pad_id : String) : Except String (Option PyVal) :=
  let sector_period_pad := sector ++ "#" ++ period ++ "#" ++ pad_id
  match query_meas site sector_period_pad with
  | .error e => .error e
  | .ok [] => .ok none
  | .ok (measurement :: _) => .ok (some measurement)

/-- Flask `jsonify({'error': msg})`. -/
def jsonError (msg : String) : PyVal := .dict (.cons "error" (.str msg) .nil)

/-- Embedding of the route `GET /api/pipemeasure/measurement/...`
(src/app.py lines 369-403): `None` from the service maps to a 404 body,
a raised exception to a 500 body with the underlying message. -/
def get_pipe_measurement_route (query_meas : String → String → Except String (List PyVal))
    (site sector period pad_id : String) : ℕ × PyVal :=
  match pm_get_measurement query_meas site sector period pad_id with
  | .error e => (500, jsonError e)
  | .ok none => (404, .dict (.cons "error" (.str "Measurement not found")
      (.cons "message" (.str ("No measurement data available for PAD: " ++ pad_id)) .nil)))
  | .ok (some measurement) => (200, decimal_to_float measurement)

/-- Embedding of the route `GET /api/optical/(image_id)`
(src/app.py lines 303-312): every exception, including the `ValueError`
for a missing record, maps to a 500 body with the exception text. -/
def get_optical_image_route (get_item : String → Option ImageRec) (presign : String → String)
    (image_id : String) : ℕ × PyVal :=
  match get_optical_image_url get_item presign image_id with
  | .ok url => (200, .dict (.cons "url" (.str url) .nil))
  | .error e => (500, jsonError e)

/-- A Python optional string as a JSON value. -/
def optionToPy : Option String → PyVal
  | none => .pnone
  | some s => .str s

/-- Embedding of the route `GET /api/thermal/(image_id)`
(src/app.py lines 315-326): the handler wraps the whole service result —
itself a two-key dictionary — under a single `url` key
(`jsonify({'url': url})` where `url` is that dictionary). -/
def get_thermal_image_route (get_item : String → Option ImageRec)
    (s3_head : String → HeadResult) (presign : String → String)
    (image_id : String) (palette : String) : ℕ × PyVal :=
  match get_thermal_image_url get_item s3_head presign image_id palette with
  | .ok result =>
    (200, .dict (.cons "url"
      (.dict (.cons "url" (.str result.url)
        (.cons "colorbar_url" (optionToPy result.colorbar_url) .nil))) .nil))
  | .error e => (500, jsonError e)

/-! ## Report generation (`ReportService.generate_pdf` and its route) -/

/-- Errors raised by `generate_pdf`: a `FileNotFoundError` for the missing
template, or a generic exception with a message. -/
inductive ReportErr where
  | fileNotFound : String → ReportErr
  | exc : String → ReportErr
deriving DecidableEq

/-- Outcome of the external LibreOffice conversion step: produced PDF
bytes, a non-zero exit with diagnostic text, or exit 0 without a PDF
file. -/
inductive ConvertOutcome where
  | success : String → ConvertOutcome
  | convertFail : String → ConvertOutcome
  | pdfMissing : ConvertOutcome
deriving DecidableEq

/-- Embedding of `ReportService.generate_pdf`
(src/services/report_service.py lines 34-96): raise `FileNotFoundError`
when the template file does not exist, otherwise run the converter and
surface its diagnostic output on failure. -/
def generate_pdf (template_exists : Bool) (template_path : String)
    (convert : ConvertOutcome) : Except ReportErr String :=
  if !template_exists then
    .error (.fileNotFound ("Template file not found: " ++ template_path))
  else
    match convert with
    | .success pdf_bytes => .ok pdf_bytes
    | .convertFail msg => .error (.exc ("PDF conversion failed: " ++ msg))
    | .pdfMissing => .error (.exc "PDF file was not created by LibreOffice")

/-- Python truthiness of a JSON value (`if not data`). -/
def pyFalsy : PyVal → Bool
  | .dec d => d == 0
  | .flt d => d == 0
  | .str s => s == ""
  | .intg n => n == 0
  | .boolean b => !b
  | .pnone => true
  | .dict .nil => true
  | .dict (.cons _ _ _) => false
  | .list .nil => true
  | .list (.cons _ _) => false

/-- Ordered dictionary lookup on `PyFields`. -/
def fieldsLookup : PyFields → String → Option PyVal
  | .nil, _ => none
  | .cons k v rest, key => if k = key then some v else fieldsLookup rest key

/-- Top-level field of a JSON body (`none` for non-dict bodies or absent
keys). -/
def topField : PyVal → String → Option PyVal
  | .dict kvs, key => fieldsLookup kvs key
  | _, _ => none

/-- Embedding of the route `POST /api/report/generate`
(src/app.py lines 446-506).  `body` is `request.get_json()` (`none` when
no JSON body was sent).  A non-dict JSON body is idealised as missing all
required fields.  A `FileNotFoundError` from the service maps to a 500
response with a fixed descriptive message; any other exception maps to a
500 response with the exception text. -/
def generate_report_route (template_exists : Bool) (template_path : String)
    (convert : ConvertOutcome) (body : Option PyVal) : ℕ × PyVal :=
  match body with
  | none => (400, jsonError "No data provided")
  | some data =>
    if pyFalsy data then (400, jsonError "No data provided")
    else
      let keyPresent : String → Bool := fun f =>
        match data with
        | .dict kvs => (fieldsLookup kvs f).isSome
        | _ => false
      let missing := ["site", "sector", "rows"].filter (fun f => !(keyPresent f))
      if !missing.isEmpty then
        (400, jsonError ("Missing required fields: " ++ String.intercalate ", " missing))
      else
        match topField data "rows" with
        | some (.list _) =>
          (match generate_pdf template_exists template_path convert with
          | .ok pdf_bytes => (200, .str pdf_bytes)
          | .error (.fileNotFound _) =>
            (500, jsonError "Report template not found. Please contact administrator.")
          | .error (.exc msg) => (500, jsonError msg))
        | _ => (400, jsonError "rows must be an array")

/-! ## Claim C3: coverage statistics on an empty image set -/

/-- C3 counterexample: the claim says the empty-input result carries the
fixed field-of-view constant 68.9 in `camera_fov_deg`, but the code's
empty-input branch returns 0 there. -/
theorem C3_counterexample :
    (get_coverage_stats []).camera_fov_deg = 0 ∧ (0 : ℚ) ≠ 689 / 10 := by
  refine ⟨rfl, by norm_num⟩

/-- C3 (amended): the coverage estimator applied to an empty image set
returns all-zero statistics, with 0 — not 68.9 — in `camera_fov_deg`. -/
theorem C3_empty_coverage :
    get_coverage_stats [] =
      { total_images := 0, coverage_area_m2 := 0, avg_altitude_m := 0, camera_fov_deg := 0 } :=
  rfl

/-! ## Claim C4: calibrated temperature statistics -/

/-- Calibration block used in the C4 counterexample: status `calibrated`,
`max_calibrated` 45.2, `avg_calibrated` 30, `min_calibrated` 10. -/
def calibCal : Calibration :=
  { status := some "calibrated"
    temperature_delta := some { max_calibrated := some (226 / 5), avg_calibrated := some 30,
                                min_calibrated := some 10 }
    params := none }

/-- Raw sensor temperature block used in the C4 counterexample: minimum
12.5, maximum 60, average 30. -/
def calibTM : ThermalMetadata :=
  { temperature_min := some (25 / 2), temperature_max := some 60, temperature_avg := some 30
    emissivity := none, object_distance := none, reflected_temperature := none
    ambient_temperature := none, relative_humidity := none }

/-- Image record used in the C4 counterexample and witness: calibrated,
with raw sensor temperatures 12.5 / 60 / 30. -/
def calibImage : ImageRec :=
  { image_id := "img_c4"
    site_id := some "s", sector_id := some "sec", period := some "p"
    thermal_filename := none, optical_s3_key := none, colored_images := []
    optical_metadata := none
    thermal_metadata := some calibTM
    calibration := some calibCal
    processing_status := none }

/-- C4 counterexample: for a calibrated record whose delta block carries
`min_calibrated` 10 and whose raw sensor minimum is 12.5, the returned
`min_temp` is the raw 12.5, not the calibrated 10 — so `min_temp` does not
come from the calibration temperature delta as the claim states. -/
theorem C4_counterexample :
    ((get_thermal_stats (fun _ => some calibImage) "img_c4").map (·.min_temp) = .ok (25 / 2)) ∧
    ((get_thermal_stats (fun _ => some calibImage) "img_c4").map (·.min_temp) ≠ .ok 10) := by
  refine ⟨rfl, ?_⟩
  intro h
  simp only [get_thermal_stats, calibImage, calibCal, Except.map] at h
  simp [calibTM] at h
  norm_num at h

/-- C4 (amended): for every image record whose calibration status is
`calibrated`, the returned `max_temp` and `avg_temp` are the delta-based
calibrated values (`max_calibrated`, `avg_calibrated`), while `min_temp`
still comes from the raw `thermal_metadata.temperature_min`. -/
theorem C4_calibrated_stats (get_item : String → Option ImageRec) (image_id : String)
    (item : ImageRec) (cal : Calibration)
    (h1 : get_item image_id = some item)
    (h2 : item.calibration = some cal)
    (h3 : cal.status = some "calibrated") :
    ∃ stats, get_thermal_stats get_item image_id = .ok stats ∧
      stats.max_temp = (cal.temperature_delta.bind (·.max_calibrated)).getD 0 ∧
      stats.avg_temp = (cal.temperature_delta.bind (·.avg_calibrated)).getD 0 ∧
      stats.min_temp = (item.thermal_metadata.bind (·.temperature_min)).getD 0 ∧
      stats.is_calibrated = true := by
  simp only [get_thermal_stats, h1]
  cases hc : (item.processing_status.bind (·.colormapping) |>.bind (·.medical)
      |>.bind (·.temperature_stats)) with
  | none => exact ⟨_, rfl, by simp [h2, h3], by simp [h2, h3], by simp [h2, h3], by simp [h2, h3]⟩
  | some ts => exact ⟨_, rfl, by simp [h2, h3], by simp [h2, h3], by simp [h2, h3], by simp [h2, h3]⟩

/-- C4 witness: the amended statement instantiated at the concrete
calibrated record `calibImage`. -/
theorem C4_witness :
    ∃ stats, get_thermal_stats (fun _ => some calibImage) "img_c4" = .ok stats ∧
      stats.max_temp = (calibCal.temperature_delta.bind (·.max_calibrated)).getD 0 ∧
      stats.avg_temp = (calibCal.temperature_delta.bind (·.avg_calibrated)).getD 0 ∧
      stats.min_temp = (calibImage.thermal_metadata.bind (·.temperature_min)).getD 0 ∧
      stats.is_calibrated = true :=
  C4_calibrated_stats (fun _ => some calibImage) "img_c4" calibImage calibCal rfl rfl rfl

/-! ## Claim C10: `decimal_to_float` -/

mutual

/-- After `decimal_to_float`, no Decimal node remains anywhere. -/
theorem decFree_decimal_to_float : ∀ v : PyVal, decFree (decimal_to_float v) = true
  | .dec _ => rfl
  | .flt _ => rfl
  | .str _ => rfl
  | .intg _ => rfl
  | .boolean _ => rfl
  | .pnone => rfl
  | .dict kvs => by
    simp [decimal_to_float, decFree, decFreeFields_decimal_to_float kvs]
  | .list xs => by
    simp [decimal_to_float, decFree, decFreeItems_decimal_to_float xs]

theorem decFreeFields_decimal_to_float :
    ∀ kvs : PyFields, decFreeFields (decimal_to_float_fields kvs) = true
  | .nil => rfl
  | .cons _ v rest => by
    simp [decimal_to_float_fields, decFreeFields, decFree_decimal_to_float v,
      decFreeFields_decimal_to_float rest]

theorem decFreeItems_decimal_to_float :
    ∀ xs : PyItems, decFreeItems (decimal_to_float_items xs) = true
  | .nil => rfl
  | .cons v rest => by
    simp [decimal_to_float_items, decFreeItems, decFree_decimal_to_float v,
      decFreeItems_decimal_to_float rest]

end

mutual

/-- `decimal_to_float` fixes every Decimal-free value. -/
theorem decimal_to_float_of_decFree : ∀ v : PyVal, decFree v = true → decimal_to_float v = v
  | .dec _, h => by simp [decFree] at h
  | .flt _, _ => rfl
  | .str _, _ => rfl
  | .intg _, _ => rfl
  | .boolean _, _ => rfl
  | .pnone, _ => rfl
  | .dict kvs, h => by
    simp only [decFree] at h
    simp [decimal_to_float, decimal_to_float_fields_of_decFree kvs h]
  | .list xs, h => by
    simp only [decFree] at h
    simp [decimal_to_float, decimal_to_float_items_of_decFree xs h]

theorem decimal_to_float_fields_of_decFree :
    ∀ kvs : PyFields, decFreeFields kvs = true → decimal_to_float_fields kvs = kvs
  | .nil, _ => rfl
  | .cons k v rest, h => by
    simp only [decFreeFields, Bool.and_eq_true] at h
    simp [decimal_to_float_fields, decimal_to_float_of_decFree v h.1,
      decimal_to_float_fields_of_decFree rest h.2]

theorem decimal_to_float_items_of_decFree :
    ∀ xs : PyItems, decFreeItems xs = true → decimal_to_float_items xs = xs
  | .nil, _ => rfl
  | .cons v rest, h => by
    simp only [decFreeItems, Bool.and_eq_true] at h
    simp [decimal_to_float_items, decimal_to_float_of_decFree v h.1,
      decimal_to_float_items_of_decFree rest h.2]

end

/-- Key list of a dictionary, in order. -/
def fieldsKeys : PyFields → List String
  | .nil => []
  | .cons k _ rest => k :: fieldsKeys rest

/-- Length of a JSON list. -/
def itemsLength : PyItems → ℕ
  | .nil => 0
  | .cons _ rest => itemsLength rest + 1

/-- `decimal_to_float` preserves dictionary keys and their order. -/
theorem fieldsKeys_decimal_to_float :
    ∀ kvs : PyFields, fieldsKeys (decimal_to_float_fields kvs) = fieldsKeys kvs
  | .nil => rfl
  | .cons k v rest => by
    simp [decimal_to_float_fields, fieldsKeys, fieldsKeys_decimal_to_float rest]

/-- `decimal_to_float` preserves list lengths. -/
theorem itemsLength_decimal_to_float :
    ∀ xs : PyItems, itemsLength (decimal_to_float_items xs) = itemsLength xs
  | .nil => rfl
  | .cons v rest => by
    simp [decimal_to_float_items, itemsLength, itemsLength_decimal_to_float rest]

/-- C10: `decimal_to_float` replaces every Decimal by the corresponding
float, fixes Decimal-free values (so every other leaf and the structure
are unchanged), leaves no Decimal behind, preserves dictionary keys with
their order and list lengths, and is idempotent. -/
theorem C10_decimal_to_float_spec :
    (∀ d : ℚ, decimal_to_float (.dec d) = .flt d) ∧
    (∀ v : PyVal, decFree v = true → decimal_to_float v = v) ∧
    (∀ v : PyVal, decFree (decimal_to_float v) = true) ∧
    (∀ kvs : PyFields, fieldsKeys (decimal_to_float_fields kvs) = fieldsKeys kvs) ∧
    (∀ xs : PyItems, itemsLength (decimal_to_float_items xs) = itemsLength xs) ∧
    (∀ v : PyVal, decimal_to_float (decimal_to_float v) = decimal_to_float v) :=
  ⟨fun _ => rfl, decimal_to_float_of_decFree, decFree_decimal_to_float,
   fieldsKeys_decimal_to_float, itemsLength_decimal_to_float,
   fun v => decimal_to_float_of_decFree _ (decFree_decimal_to_float v)⟩

/-- A concrete Decimal-free nested value. -/
def samplePy : PyVal :=
  .dict (.cons "a" (.flt 3) (.cons "b" (.list (.cons (.str "x") .nil)) .nil))

/-- C10 witness: the fixed-point part of the claim evaluated at a concrete
Decimal-free nested value. -/
theorem C10_witness : decimal_to_float samplePy = samplePy :=
  C10_decimal_to_float_spec.2.1 samplePy rfl

/-! ## Claims C6 and C7: coverage averages and area -/

/-- The altitude loop keeps exactly the nonzero present altitudes, in
order. -/
theorem collectAltitudes_eq_filter :
    ∀ images : List ImageRec,
      collectAltitudes images = (presentAltitudes images).filter (fun a => a ≠ 0)
  | [] => rfl
  | img :: rest => by
    simp only [collectAltitudes, presentAltitudes, List.filterMap_cons]
    cases halt : (img.optical_metadata.bind (·.gps_location)).bind (·.altitude) with
    | none =>
      simpa [truthyQ, presentAltitudes] using collectAltitudes_eq_filter rest
    | some a =>
      by_cases ha : a = 0
      · simpa [truthyQ, ha, presentAltitudes] using collectAltitudes_eq_filter rest
      · simpa [truthyQ, ha, presentAltitudes] using collectAltitudes_eq_filter rest

/-- The code's `avg_altitude` equals the mean over nonzero present
altitudes. -/
theorem codeAvg_eq_specMeanNonzero (images : List ImageRec) :
    codeAvgAltitude images = specMeanNonzero images := by
  unfold codeAvgAltitude specMeanNonzero specNonzeroAltitudes
  rw [collectAltitudes_eq_filter]
  by_cases he : (presentAltitudes images).filter (fun a => a ≠ 0) = []
  · simp [he]
  · simp [he, List.isEmpty_iff]

/-- On a nonempty image list, the returned `avg_altitude_m` is the rounded
code average. -/
theorem coverage_avg_eq (images : List ImageRec) (h : images ≠ []) :
    (get_coverage_stats images).avg_altitude_m = roundTo2Q (codeAvgAltitude images) := by
  cases images with
  | nil => exact absurd rfl h
  | cons a t => rfl

/-- Images with altitudes 0, 1, 2, 4 for the C6 counterexample. -/
def altImage (name : String) (alt : Option ℚ) : ImageRec :=
  { image_id := name, site_id := none, sector_id := none, period := none
    thermal_filename := none, optical_s3_key := none, colored_images := []
    optical_metadata := some { gps_location := some { altitude := alt } }
    thermal_metadata := none, calibration := none, processing_status := none }

/-- Concrete image list with recorded altitudes 0, 1, 2 and 4 metres. -/
def altImages : List ImageRec :=
  [altImage "i0" (some 0), altImage "i1" (some 1), altImage "i2" (some 2),
   altImage "i4" (some 4)]

/-- C6 counterexample: with recorded altitudes `[0, 1, 2, 4]` the claim's
mean over all present altitudes is 7/4, but the code returns 2.33 — the
image whose recorded altitude is 0 was excluded by the truthiness test
(and the result is rounded). -/
theorem C6_counterexample :
    (get_coverage_stats altImages).avg_altitude_m = 233 / 100 ∧
    specMeanPresent altImages = 7 / 4 ∧ (233 / 100 : ℚ) ≠ 7 / 4 := by
  have hcollect : collectAltitudes altImages = [1, 2, 4] := by
    norm_num [collectAltitudes, altImages, altImage, truthyQ]
  have hpresent : presentAltitudes altImages = [0, 1, 2, 4] := by
    simp [presentAltitudes, altImages, altImage]
  have hround : round ((700 : ℚ) / 3) = 233 := by
    rw [round_eq]
    have h1403 : (700 : ℚ) / 3 + 1 / 2 = 1403 / 6 := by norm_num
    rw [h1403]
    refine Int.floor_eq_iff.mpr ⟨by norm_num, by norm_num⟩
  refine ⟨?_, ?_, by norm_num⟩
  · rw [coverage_avg_eq altImages (by simp [altImages])]
    unfold codeAvgAltitude
    rw [hcollect]
    have hsum : ([1, 2, 4] : List ℚ).sum = 7 := by norm_num
    have hlen : (([1, 2, 4] : List ℚ).length : ℚ) = 3 := by norm_num
    simp only [List.isEmpty_cons, hsum, hlen]
    unfold roundTo2Q
    norm_num [hround]
  · unfold specMeanPresent
    rw [hpresent]
    norm_num

/-- C6 (amended): for every non-empty image set, `avg_altitude_m` is the
arithmetic mean of the nonzero recorded altitudes rounded to two decimals;
an image with missing altitude or with recorded altitude 0 is excluded
from both numerator and denominator. -/
theorem C6_avg_altitude (images : List ImageRec) (h : images ≠ []) :
    (get_coverage_stats images).avg_altitude_m = roundTo2Q (specMeanNonzero images) := by
  rw [coverage_avg_eq images h, codeAvg_eq_specMeanNonzero]

/-- Two images at altitude 100 m, the spec's §8 reproducibility example. -/
def alt100Images : List ImageRec :=
  [altImage "a" (some 100), altImage "b" (some 100)]

/-- C6 witness: the amended statement at the two-image 100 m list. -/
theorem C6_witness :
    alt100Images ≠ [] ∧
    (get_coverage_stats alt100Images).avg_altitude_m = roundTo2Q (specMeanNonzero alt100Images) :=
  ⟨by simp [alt100Images], C6_avg_altitude alt100Images (by simp [alt100Images])⟩

/-- C7: for every non-empty image set, if the average altitude `h` is
positive the returned `coverage_area_m2` equals the claim's closed formula
`round(w * (w * 512/640) * n * 0.4, 2)` with
`w = 2 * h * tan(radians(68.9) / 2)`, and a zero or negative average
altitude yields coverage area 0.  (Determinism is inherent: the estimator
is a pure function of the image list.) -/
theorem C7_coverage_area (images : List ImageRec) (h : images ≠ []) :
    (0 < specMeanNonzero images →
      (get_coverage_stats images).coverage_area_m2 =
        specCoverageArea (specMeanNonzero images) images.length) ∧
    (specMeanNonzero images ≤ 0 → (get_coverage_stats images).coverage_area_m2 = 0) := by
  have hfov : fov_rad = (68.9 : ℝ) * Real.pi / 180 := by
    unfold fov_rad camera_fov
    norm_num
  have hAvg := codeAvg_eq_specMeanNonzero images
  cases images with
  | nil => exact absurd rfl h
  | cons a t =>
    constructor
    · intro hpos
      rw [← hAvg] at hpos
      show roundTo2R _ = _
      rw [if_pos hpos]
      unfold specCoverageArea
      refine congrArg roundTo2R ?_
      rw [← hAvg, hfov]
      push_cast
      ring
    · intro hnonpos
      rw [← hAvg] at hnonpos
      show roundTo2R _ = _
      rw [if_neg (not_lt.mpr hnonpos)]
      unfold roundTo2R
      simp

/-- C7 witness: the positive-altitude branch evaluated at the concrete
two-image 100 m list. -/
theorem C7_witness :
    0 < specMeanNonzero alt100Images ∧
    (get_coverage_stats alt100Images).coverage_area_m2 =
      specCoverageArea (specMeanNonzero alt100Images) alt100Images.length := by
  have hp : presentAltitudes alt100Images = [100, 100] := by
    simp [presentAltitudes, alt100Images, altImage]
  have hnz : specNonzeroAltitudes alt100Images = [100, 100] := by
    unfold specNonzeroAltitudes
    rw [hp]
    norm_num
  have hmean : specMeanNonzero alt100Images = 100 := by
    unfold specMeanNonzero
    rw [hnz, if_neg (by simp)]
    norm_num
  exact ⟨by rw [hmean]; norm_num,
    (C7_coverage_area alt100Images (by simp [alt100Images])).1 (by rw [hmean]; norm_num)⟩

/-! ## Claims C1, C2, C9: pad completeness -/

/-- The outer catch of `check_pad_completeness` returns `true` exactly when
the `try` body returns `True`. -/
theorem check_pad_eq_true_iff (query_images : ImagesQuery) (s3_head : String → HeadResult)
    (site sector period pad_id : String) :
    check_pad_completeness query_images s3_head site sector period pad_id = true ↔
      check_pad_completeness_run query_images s3_head site sector period pad_id = .ok true := by
  unfold check_pad_completeness
  cases h : check_pad_completeness_run query_images s3_head site sector period pad_id with
  | ok r => cases r <;> simp
  | error e => simp

/-- Under an error-free blob store, the variant loop succeeds exactly when
every listed variant is complete. -/
theorem checkMosaicTypes_iff (s3_head : String → HeadResult) (hs : errorFreeProbe s3_head)
    (inc : List String) (keys : List (String × String)) :
    ∀ ts : List String, checkMosaicTypes s3_head inc keys ts = .ok true ↔
      ∀ t ∈ ts, variantComplete s3_head inc keys t
  | [] => by simp [checkMosaicTypes]
  | t :: rest => by
    have ih := checkMosaicTypes_iff s3_head hs inc keys rest
    simp only [checkMosaicTypes]
    by_cases hinc : inc.contains t
    · rw [if_pos hinc]
      have hmem : t ∈ inc := by simpa using hinc
      cases hlk : keys.lookup t with
      | none =>
        simp [List.forall_mem_cons, variantComplete, hlk]
      | some base =>
        rcases hs (base ++ "/odm_orthophoto.tif") with h1 | h1
        · rcases hs (base ++ "/shots.geojson") with h2 | h2
          · simp [s3_object_exists, h1, h2, List.forall_mem_cons, ih, variantComplete,
              hmem, hlk]
          · simp [s3_object_exists, h1, h2, List.forall_mem_cons, variantComplete, hlk]
        · simp [s3_object_exists, h1, List.forall_mem_cons, variantComplete, hlk]
    · rw [if_neg hinc]
      have hmem : t ∉ inc := by simpa using hinc
      simp [List.forall_mem_cons, variantComplete, hmem]

/-- C1: under an error-free blob store, `check_pad_completeness` returns
true exactly when at least one image record exists and, for each of the
three variants in order, the variant is listed in the representative
record's `included_in`, keyed in `mosaic_s3_keys`, and both composed
artifact objects exist; with zero image records it returns false. -/
theorem C1_completeness_iff (query_images : ImagesQuery) (s3_head : String → HeadResult)
    (site sector period pad_id : String) (items : List ImageRec)
    (hq : query_images site sector period pad_id = .ok items)
    (hs : errorFreeProbe s3_head) :
    check_pad_completeness query_images s3_head site sector period pad_id = true ↔
      ∃ first_image rest, items = first_image :: rest ∧
        ∀ t ∈ required_types,
          variantComplete s3_head
            (((first_image.processing_status.bind (·.mosaic_prep)).bind (·.included_in)).getD [])
            (((first_image.processing_status.bind (·.mosaic_prep)).bind (·.mosaic_s3_keys)).getD [])
            t := by
  rw [check_pad_eq_true_iff]
  unfold check_pad_completeness_run
  rw [hq]
  cases items with
  | nil => simp
  | cons first rest =>
    rw [checkMosaicTypes_iff s3_head hs]
    simp

/-- Mosaic-prep block of a fully complete image record. -/
def completeMosaicPrep : MosaicPrep :=
  { included_in := some ["optical", "medical", "hotspot_alert"]
    mosaic_s3_keys := some
      [("optical", "mosaics/s/sec/p/pad/optical/viewer"),
       ("medical", "mosaics/s/sec/p/pad/medical/viewer"),
       ("hotspot_alert", "mosaics/s/sec/p/pad/hotspot_alert/viewer")] }

/-- A fully complete image record: all three variants listed and keyed. -/
def completeImage : ImageRec :=
  { image_id := "img1"
    site_id := some "s", sector_id := some "sec", period := some "p"
    thermal_filename := none, optical_s3_key := none, colored_images := []
    optical_metadata := none, thermal_metadata := none, calibration := none
    processing_status := some { mosaic_prep := some completeMosaicPrep, colormapping := none } }

/-- Query returning the single complete record. -/
def qComplete : ImagesQuery := fun _ _ _ _ => .ok [completeImage]

/-- Blob store where every probe succeeds. -/
def s3AllOk : String → HeadResult := fun _ => .ok

/-- C1 witness: the equivalence applied to a concrete fully complete store
(the `mpr` direction yields `true`). -/
theorem C1_witness :
    check_pad_completeness qComplete s3AllOk "s" "sec" "p" "pad" = true :=
  (C1_completeness_iff qComplete s3AllOk "s" "sec" "p" "pad" [completeImage] rfl
      (fun _ => Or.inl rfl)).mpr
    ⟨completeImage, [], rfl, by
      intro t ht
      simp only [required_types, List.mem_cons, List.mem_singleton] at ht
      rcases ht with rfl | rfl | rfl | h
      · exact ⟨by simp [completeImage, completeMosaicPrep],
          "mosaics/s/sec/p/pad/optical/viewer", rfl, rfl, rfl⟩
      · exact ⟨by simp [completeImage, completeMosaicPrep],
          "mosaics/s/sec/p/pad/medical/viewer", rfl, rfl, rfl⟩
      · exact ⟨by simp [completeImage, completeMosaicPrep],
          "mosaics/s/sec/p/pad/hotspot_alert/viewer", rfl, rfl, rfl⟩
      · cases h⟩

/-- Blob store where every probe fails with a permissions-style 403
`ClientError`. -/
def s3Denied : String → HeadResult := fun _ => .clientError "403"

/-- C2 counterexample: with a 403 `ClientError` on the first probe, the
fault does leave `_s3_object_exists` and the `try` body, but
`check_pad_completeness` (the claim's `is_complete`) catches it and
returns `false` instead of propagating it. -/
theorem C2_counterexample :
    s3_object_exists s3Denied "mosaics/s/sec/p/pad/optical/viewer/odm_orthophoto.tif" = .error () ∧
    check_pad_completeness_run qComplete s3Denied "s" "sec" "p" "pad" = .error () ∧
    check_pad_completeness qComplete s3Denied "s" "sec" "p" "pad" = false :=
  ⟨rfl, rfl, rfl⟩

/-- C2 (amended): a non-"not found" `ClientError` propagates as a fault
out of `_s3_object_exists`, a 404 response is the non-fatal
'artifact absent' signal `False`, and any fault raised inside the check is
caught by `check_pad_completeness`, which then returns `false` rather than
propagating it. -/
theorem C2_probe_error_handling (query_images : ImagesQuery) (s3_head : String → HeadResult)
    (site sector period pad_id k code : String) :
    (s3_head k = .clientError code → code ≠ "404" → s3_object_exists s3_head k = .error ()) ∧
    (s3_head k = .clientError "404" → s3_object_exists s3_head k = .ok false) ∧
    (∀ e, check_pad_completeness_run query_images s3_head site sector period pad_id = .error e →
      check_pad_completeness query_images s3_head site sector period pad_id = false) := by
  refine ⟨?_, ?_, ?_⟩
  · intro h hc
    simp [s3_object_exists, h, hc]
  · intro h
    simp [s3_object_exists, h]
  · intro e he
    unfold check_pad_completeness
    rw [he]

/-- C2 witness: the amended statement applied at the 403-denied store. -/
theorem C2_witness :
    s3_object_exists s3Denied "k" = .error () ∧
    check_pad_completeness qComplete s3Denied "s" "sec" "p" "pad" = false :=
  ⟨(C2_probe_error_handling qComplete s3Denied "s" "sec" "p" "pad" "k" "403").1 rfl
      (by decide),
   (C2_probe_error_handling qComplete s3Denied "s" "sec" "p" "pad" "k" "403").2.2 () rfl⟩

/-- C9: `check_pad_completeness` converts every exception raised inside
the check — a record-store query failure as well as any fault from the
blob-store probes — into the boolean result `false`; it never re-raises. -/
theorem C9_never_raises (query_images : ImagesQuery) (s3_head : String → HeadResult)
    (site sector period pad_id : String) :
    (∀ e, query_images site sector period pad_id = .error e →
      check_pad_completeness query_images s3_head site sector period pad_id = false) ∧
    (∀ e, check_pad_completeness_run query_images s3_head site sector period pad_id = .error e →
      check_pad_completeness query_images s3_head site sector period pad_id = false) := by
  constructor
  · intro e he
    unfold check_pad_completeness check_pad_completeness_run
    rw [he]
  · intro e he
    unfold check_pad_completeness
    rw [he]

/-- Record-store query that raises. -/
def qFail : ImagesQuery := fun _ _ _ _ => .error ()

/-- C9 witness: a failing record-store query yields `false`. -/
theorem C9_witness :
    check_pad_completeness qFail s3AllOk "s" "sec" "p" "pad" = false :=
  (C9_never_raises qFail s3AllOk "s" "sec" "p" "pad").1 () rfl

/-! ## Claim C5: not-found versus infra error mapping -/

/-- A well-formed report request body: `site`, `sector` and a list-valued
`rows`. -/
def validReportBody : PyVal :=
  .dict (.cons "site" (.str "EDC") (.cons "sector" (.str "X") (.cons "rows" (.list .nil) .nil)))

/-- C5 counterexample: a missing image record yields a 500 response (not
404), and a missing report template also yields a 500 response — so not
every not-found condition maps to a 404-style response. -/
theorem C5_counterexample :
    get_optical_image_route (fun _ => none) (fun k => k) "img1" =
      (500, jsonError "Image not found: img1") ∧
    generate_report_route false "line-loss-template.docx" (.success "pdf") (some validReportBody) =
      (500, jsonError "Report template not found. Please contact administrator.") ∧
    (500 : ℕ) ≠ 404 :=
  ⟨rfl, rfl, by decide⟩

/-- C5 (amended): a missing measurement record maps to a 404 response with
a descriptive message, and a failing measurement query to a 500 response
with the underlying message; a missing image record maps to a 500 response
carrying the underlying "Image not found" message; a missing report
template maps to a 500 response with a fixed descriptive message. -/
theorem C5_error_mapping :
    (∀ (query_meas : String → String → Except String (List PyVal)) (site sector period pad_id : String),
      query_meas site (sector ++ "#" ++ period ++ "#" ++ pad_id) = .ok [] →
      get_pipe_measurement_route query_meas site sector period pad_id =
        (404, .dict (.cons "error" (.str "Measurement not found")
          (.cons "message" (.str ("No measurement data available for PAD: " ++ pad_id)) .nil)))) ∧
    (∀ (query_meas : String → String → Except String (List PyVal)) (site sector period pad_id e : String),
      query_meas site (sector ++ "#" ++ period ++ "#" ++ pad_id) = .error e →
      get_pipe_measurement_route query_meas site sector period pad_id = (500, jsonError e)) ∧
    (∀ (get_item : String → Option ImageRec) (presign : String → String) (image_id : String),
      get_item image_id = none →
      get_optical_image_route get_item presign image_id =
        (500, jsonError ("Image not found: " ++ image_id))) ∧
    (∀ (template_path : String) (convert : ConvertOutcome) (kvs : PyFields) (rows : PyItems),
      fieldsLookup kvs "site" ≠ none → fieldsLookup kvs "sector" ≠ none →
      fieldsLookup kvs "rows" = some (.list rows) →
      generate_report_route false template_path convert (some (.dict kvs)) =
        (500, jsonError "Report template not found. Please contact administrator.")) := by
  refine ⟨?_, ?_, ?_, ?_⟩
  · intro query_meas site sector period pad_id h
    unfold get_pipe_measurement_route pm_get_measurement
    simp only [h]
  · intro query_meas site sector period pad_id e h
    unfold get_pipe_measurement_route pm_get_measurement
    simp only [h]
  · intro get_item presign image_id h
    unfold get_optical_image_route get_optical_image_url
    rw [h]
  · intro template_path convert kvs rows h1 h2 h3
    cases kvs with
    | nil => simp [fieldsLookup] at h3
    | cons k v rest =>
      unfold generate_report_route
      simp [pyFalsy, topField, h3, generate_pdf, Option.isSome_iff_ne_none, h1, h2]

/-- C5 witness: the 404 mapping and the 500 image mapping at concrete
stores. -/
theorem C5_witness :
    get_pipe_measurement_route (fun _ _ => .ok []) "s" "sec" "p" "pad" =
      (404, .dict (.cons "error" (.str "Measurement not found")
        (.cons "message" (.str ("No measurement data available for PAD: " ++ "pad")) .nil))) ∧
    get_optical_image_route (fun _ => none) (fun k => k) "imgW" =
      (500, jsonError ("Image not found: " ++ "imgW")) :=
  ⟨C5_error_mapping.1 (fun _ _ => .ok []) "s" "sec" "p" "pad" rfl,
   C5_error_mapping.2.2.1 (fun _ => none) (fun k => k) "imgW" rfl⟩

/-! ## Claim C8: thermal image URL and colorbar -/

/-- Image record with a medical colored thermal image for the C8
counterexample and witness. -/
def thermalImage : ImageRec :=
  { image_id := "leyte_mb_20250409_DJI_0539_T"
    site_id := some "s", sector_id := some "sec", period := some "p"
    thermal_filename := some "DJI_0539_T.JPG"
    optical_s3_key := none
    colored_images := [("medical", "colored-img-key")]
    optical_metadata := none, thermal_metadata := none, calibration := none
    processing_status := none }

/-- Presigner used by the C8 concrete statements. -/
def presignW : String → String := fun k => "https://signed/" ++ k

/-- When the identifying fields are present and truthy, `_get_colorbar_url`
returns a presigned URL for the composed colorbar key exactly when its
existence probe succeeds, and `None` otherwise. -/
theorem get_colorbar_url_eq (s3_head : String → HeadResult) (presign : String → String)
    (item : ImageRec) (palette site sector period tf : String)
    (hst : item.site_id = some site) (hst2 : site ≠ "")
    (hsc : item.sector_id = some sector) (hsc2 : sector ≠ "")
    (hpd : item.period = some period) (hpd2 : period ≠ "")
    (htf : item.thermal_filename = some tf) (htf2 : tf ≠ "") :
    get_colorbar_url s3_head presign item palette =
      if s3_head (colorbar_key_of palette site sector period (stripLastExt tf)) = .ok
      then some (presign (colorbar_key_of palette site sector period (stripLastExt tf)))
      else none := by
  unfold get_colorbar_url
  rw [hst, hsc, hpd, htf]
  simp only [truthyS, Option.getD_some]
  rw [if_neg (by simp [bne_iff_ne, hst2, hsc2, hpd2])]
  rw [if_pos (by simp [bne_iff_ne, htf2])]
  cases hhead : s3_head (colorbar_key_of palette site sector period (stripLastExt tf)) with
  | ok => simp [hhead]
  | clientError c => simp [hhead]
  | otherError => simp [hhead]

/-- C8 (amended): for every image with a colored thermal image for the
requested palette (and truthy identifying fields), the service returns the
signed thermal URL and a `colorbar_url` that is a signed URL exactly when
the legend artifact exists and `None` otherwise — but the route body nests
this two-field object under a single top-level `url` key rather than
exposing the two fields at the top level. -/
theorem C8_thermal_urls (get_item : String → Option ImageRec)
    (s3_head : String → HeadResult) (presign : String → String)
    (image_id palette : String) (item : ImageRec) (s3_key site sector period tf : String)
    (h1 : get_item image_id = some item)
    (h2 : item.colored_images.lookup palette = some s3_key)
    (h3 : s3_key ≠ "")
    (hst : item.site_id = some site) (hst2 : site ≠ "")
    (hsc : item.sector_id = some sector) (hsc2 : sector ≠ "")
    (hpd : item.period = some period) (hpd2 : period ≠ "")
    (htf : item.thermal_filename = some tf) (htf2 : tf ≠ "") :
    get_thermal_image_url get_item s3_head presign image_id palette =
      .ok { url := presign s3_key
            colorbar_url :=
              if s3_head (colorbar_key_of palette site sector period (stripLastExt tf)) = .ok
              then some (presign (colorbar_key_of palette site sector period (stripLastExt tf)))
              else none } ∧
    get_thermal_image_route get_item s3_head presign image_id palette =
      (200, .dict (.cons "url" (.dict (.cons "url" (.str (presign s3_key))
        (.cons "colorbar_url" (optionToPy
          (if s3_head (colorbar_key_of palette site sector period (stripLastExt tf)) = .ok
           then some (presign (colorbar_key_of palette site sector period (stripLastExt tf)))
           else none)) .nil))) .nil)) := by
  have hurl : get_thermal_image_url get_item s3_head presign image_id palette =
      .ok { url := presign s3_key
            colorbar_url :=
              if s3_head (colorbar_key_of palette site sector period (stripLastExt tf)) = .ok
              then some (presign (colorbar_key_of palette site sector period (stripLastExt tf)))
              else none } := by
    unfold get_thermal_image_url
    rw [h1]
    simp only [h2, truthyS, Option.getD_some]
    rw [if_neg (by simp [bne_iff_ne, h3])]
    rw [get_colorbar_url_eq s3_head presign item palette site sector period tf
      hst hst2 hsc hsc2 hpd hpd2 htf htf2]
  refine ⟨hurl, ?_⟩
  unfold get_thermal_image_route
  rw [hurl]

/-- C8 counterexample: at a concrete store where the thermal image and its
colorbar legend both exist, the route's response body has no top-level
`colorbar_url` field; the pair sits nested under the single `url` key. -/
theorem C8_counterexample :
    (get_thermal_image_route (fun _ => some thermalImage) s3AllOk presignW "img" "medical").1
      = 200 ∧
    topField
      (get_thermal_image_route (fun _ => some thermalImage) s3AllOk presignW "img" "medical").2
      "colorbar_url" = none ∧
    topField
      (get_thermal_image_route (fun _ => some thermalImage) s3AllOk presignW "img" "medical").2
      "url" =
      some (.dict (.cons "url" (.str (presignW "colored-img-key"))
        (.cons "colorbar_url"
          (.str (presignW "colored/medical/s/sec/p/DJI_0539_T_colorbar.png")) .nil))) :=
  ⟨rfl, rfl, rfl⟩

/-- C8 witness: the amended statement at the concrete store with image and
legend present. -/
theorem C8_witness :
    get_thermal_image_url (fun _ => some thermalImage) s3AllOk presignW "img" "medical" =
      .ok { url := presignW "colored-img-key"
            colorbar_url :=
              if s3AllOk (colorbar_key_of "medical" "s" "sec" "p" (stripLastExt "DJI_0539_T.JPG")) = .ok
              then some (presignW (colorbar_key_of "medical" "s" "sec" "p" (stripLastExt "DJI_0539_T.JPG")))
              else none } ∧
    get_thermal_image_route (fun _ => some thermalImage) s3AllOk presignW "img" "medical" =
      (200, .dict (.cons "url" (.dict (.cons "url" (.str (presignW "colored-img-key"))
        (.cons "colorbar_url" (optionToPy
          (if s3AllOk (colorbar_key_of "medical" "s" "sec" "p" (stripLastExt "DJI_0539_T.JPG")) = .ok
           then some (presignW (colorbar_key_of "medical" "s" "sec" "p" (stripLastExt "DJI_0539_T.JPG")))
           else none)) .nil))) .nil)) :=
  C8_thermal_urls (fun _ => some thermalImage) s3AllOk presignW "img" "medical" thermalImage
    "colored-img-key" "s" "sec" "p" "DJI_0539_T.JPG"
    rfl rfl (by decide) rfl (by decide) rfl (by decide) rfl (by decide) rfl (by decide)
